import Mathlib

/-!
Verification development for the customer lookup / PDF report repository
(`database_config.py` and `streamlit_app.py`).

The development shallowly embeds:
  * the store-level operations `search_customers` and `get_customer_by_id`
    of `database_config.py`, including the semantics of the SQL the code
    issues (SQLite default `LIKE` matching — ASCII-case-insensitive, with
    `%`/`_` wildcards — and `ORDER BY last_visit DESC LIMIT 20` with the
    BINARY text collation, under which `NULL` sorts last in `DESC` order);
  * the UI-level wrapper `search_customers` of `streamlit_app.py`, as a
    function of the HTTP transport outcome, returning the pair
    (displayed error messages, returned customer list);
  * the report renderer `generate_pdf_report` of `streamlit_app.py`
    (font selection/fallback, the customer field table, the metadata
    block, the blank annotation grid, the footer) and the batch packager
    `generate_batch_pdf_reports` (member-id extraction from the selection
    label, per-item error isolation).

Stateful effects (raised exceptions, `st.error` calls, `logger.error`
calls) are made explicit as `Except` results and message lists.
-/

namespace SqlSemantics

/-- SQLite's default `LIKE` case folding: ASCII upper-case letters fold to
lower case, every other character (including non-ASCII) is compared
verbatim. -/
def likeFold (c : Char) : Char :=
  if 65 ≤ c.toNat ∧ c.toNat ≤ 90 then Char.ofNat (c.toNat + 32) else c

/-- Does `f` accept some suffix (drop of) the character list? Used for the
`%` wildcard of `LIKE`. -/
def suffixAny (f : List Char → Bool) : List Char → Bool
  | [] => f []
  | c :: t => f (c :: t) || suffixAny f t

/-- SQLite `LIKE` pattern matching: `%` matches any (possibly empty)
character sequence, `_` matches exactly one character, any other pattern
character matches case-insensitively (ASCII folding). -/
def likeMatch : List Char → List Char → Bool
  | [] => fun s => s.isEmpty
  | p :: ps => fun s =>
      if p = '%' then suffixAny (likeMatch ps) s
      else
        match s with
        | [] => false
        | c :: t =>
            if p = '_' then likeMatch ps t
            else (likeFold p == likeFold c) && likeMatch ps t

/-- Lexicographic (memcmp-style) comparison of character lists; on UTF-8
encoded text this is exactly SQLite's default BINARY collation, since
UTF-8 byte order agrees with code-point order. -/
def charListLe : List Char → List Char → Bool
  | [], _ => true
  | _ :: _, [] => false
  | a :: as, b :: bs => if a < b then true else if a = b then charListLe as bs else false

end SqlSemantics

namespace DatabaseConfig

open SqlSemantics

/-- One row of the `customers`-shaped table the store queries
(`member_id` and `name` are `NOT NULL`; the remaining columns are
nullable). Field order follows the `CREATE TABLE` statement in
`database_config.py`. -/
structure Row where
  member_id : String
  name : String
  phone : Option String
  email : Option String
  address : Option String
  join_date : Option String
  status : Option String
  level : Option String
  points : Option Int
  last_visit : Option String
  created_at : Option String
deriving DecidableEq, Repr

/-- `field LIKE pattern` on a non-null text column. -/
def sqlLike (pattern s : String) : Bool := likeMatch pattern.data s.data

/-- `field LIKE pattern` on a nullable column: `NULL LIKE pattern` is
`NULL`, so the row is not selected. -/
def optLike (pattern : String) : Option String → Bool
  | none => false
  | some s => sqlLike pattern s

/-- The `WHERE` predicate of the `search_type == "all"` branch:
`member_id LIKE :query OR name LIKE :query OR phone LIKE :query OR
email LIKE :query`. -/
def matchAll (pattern : String) (r : Row) : Bool :=
  sqlLike pattern r.member_id || sqlLike pattern r.name ||
    optLike pattern r.phone || optLike pattern r.email

/-- SQL `ORDER BY`-comparison on the nullable `last_visit` column:
`NULL` is smallest (so it sorts last under `DESC`), non-null dates
compare with the BINARY text collation. -/
def optStrLe : Option String → Option String → Bool
  | none, _ => true
  | some _, none => false
  | some a, some b => charListLe a.data b.data

/-- `ORDER BY last_visit DESC` as a relation: `a` comes before `b` when
`b.last_visit ≤ a.last_visit`. -/
def lvDesc (a b : Row) : Prop := optStrLe b.last_visit a.last_visit = true

instance : DecidableRel lvDesc := fun a b =>
  inferInstanceAs (Decidable (optStrLe b.last_visit a.last_visit = true))

/-- `search_customers(query, search_type)` from `database_config.py`.
The store is either healthy (holding the rows of `sample_customers`) or
failing with a diagnostic; `execute_query` raising propagates the failure
(the function's `except` clause logs and re-raises).  An empty/absent
query returns the 20 most recently visited rows; otherwise the query text
is wrapped in `%…%` wildcards and dispatched on `search_type`, where any
value other than `"member_id"`, `"name"`, `"phone"` falls into the
`else` (`"all"`) branch, whose SQL also orders by `last_visit DESC`. -/
def search_customers (store : Except String (List Row)) (query : Option String)
    (search_type : String) : Except String (List Row) :=
  match store with
  | .error e => .error e
  | .ok rows =>
    if query.getD "" = "" then
      .ok ((List.insertionSort lvDesc rows).take 20)
    else
      let search_query := "%" ++ query.getD "" ++ "%"
      if search_type = "member_id" then
        .ok (rows.filter fun r => sqlLike search_query r.member_id)
      else if search_type = "name" then
        .ok (rows.filter fun r => sqlLike search_query r.name)
      else if search_type = "phone" then
        .ok (rows.filter fun r => optLike search_query r.phone)
      else
        .ok (List.insertionSort lvDesc (rows.filter fun r => matchAll search_query r))

/-- `get_customer_by_id(member_id)` from `database_config.py`: runs
`SELECT * FROM sample_customers WHERE member_id = :member_id` and returns
`result[0] if result else None`.  The second component is the list of
`logger.error` messages emitted during the call (the code only logs in
its `except` clause, which then re-raises). -/
def get_customer_by_id (store : Except String (List Row)) (mid : String) :
    Except String (Option Row) × List String :=
  match store with
  | .error e => (.error e, ["獲取客戶資料失敗: " ++ e])
  | .ok rows => (.ok (rows.filter fun r => r.member_id == mid).head?, [])

/-- The record sequence carried by a successful search result. -/
def resultList : Except String (List Row) → List Row
  | .ok l => l
  | .error _ => []

/-- Modelled from the spec's words: "contains the query text as a
case-insensitive substring" — the ASCII-case-folded query occurs as a
contiguous sublist of the ASCII-case-folded field text.  (Second,
spec-side definition used to compare the code's `LIKE`-based predicate
against the specified one.) -/
def specContainsCI (q s : String) : Prop :=
  q.data.map likeFold <:+: s.data.map likeFold

instance (q s : String) : Decidable (specContainsCI q s) := by
  unfold specContainsCI; infer_instance

/-- The spec-side containment test on a nullable field: an absent field
contains nothing. -/
def optCI (q : String) : Option String → Prop
  | none => False
  | some s => specContainsCI q s

instance (q : String) (o : Option String) : Decidable (optCI q o) := by
  cases o <;> (unfold optCI; infer_instance)

end DatabaseConfig

namespace StreamlitApp

open SqlSemantics

/-- A customer record as handled by `streamlit_app.py`: a JSON-shaped
mapping in which every field may be absent (`customer_data.get(...)`).
`points`, when present, is an integer. -/
structure CustomerData where
  member_id : Option String
  name : Option String
  phone : Option String
  email : Option String
  address : Option String
  join_date : Option String
  level : Option String
  status : Option String
  points : Option Int
  last_visit : Option String
deriving DecidableEq, Repr

/-- Outcome of the `requests.get(f"{API_BASE_URL}/customers/search", ...)`
call made by the UI-level `search_customers`: either the request raised
(connection error, timeout, malformed response), or it produced an HTTP
status together with the `customers` field of the decoded body
(`data.get("customers", [])`, so an absent field is the empty list). -/
inductive SearchResponse where
  | exn (msg : String)
  | http (status : Nat) (customers : List CustomerData)
deriving DecidableEq

/-- The UI-level `search_customers` of `streamlit_app.py` as a function of
the transport outcome.  First component: the `st.error` messages
displayed; second component: the customer list returned to the caller. -/
def search_customers : SearchResponse → List String × List CustomerData
  | .exn e => (["無法搜尋客戶資料: " ++ e], [])
  | .http status cs =>
      if status = 200 then ([], cs)
      else (["搜尋客戶失敗: HTTP " ++ toString status], [])

/-- Group a (reversed) digit list into threes, least-significant group
first. -/
def chunk3 : List Char → List (List Char)
  | [] => []
  | [a] => [[a]]
  | [a, b] => [[a, b]]
  | a :: b :: c :: rest => [a, b, c] :: chunk3 rest

/-- Python's `f"{n:,}"` for an `int`: decimal digits grouped in threes
with `,` separators, with a leading `-` for negative values. -/
def intComma (n : Int) : String :=
  let digits := (Nat.repr n.natAbs).data
  let groups := ((chunk3 digits.reverse).map List.reverse).reverse
  (if n < 0 then "-" else "") ++ String.intercalate "," (groups.map fun l => ⟨l⟩)

/-- The `table_data` grid built by `generate_pdf_report`: a header row
followed by five field rows of four cells each, every absent field
rendered via `customer_data.get(field, 'N/A')` except `points`, which is
rendered as `f"{customer_data.get('points', 0):,} 點"`. -/
def table_data (cd : CustomerData) : List (List String) :=
  [["項目", "內容", "項目", "內容"],
   ["會員編號", cd.member_id.getD "N/A", "客戶姓名", cd.name.getD "N/A"],
   ["聯絡電話", cd.phone.getD "N/A", "電子郵件", cd.email.getD "N/A"],
   ["聯絡地址", cd.address.getD "N/A", "加入日期", cd.join_date.getD "N/A"],
   ["會員等級", cd.level.getD "N/A", "會員狀態", cd.status.getD "N/A"],
   ["累積點數", intComma (cd.points.getD 0) ++ " 點", "最後來訪", cd.last_visit.getD "N/A"]]

/-- Cell `(i, j)` of the customer field grid. -/
def cellAt (cd : CustomerData) (i j : Nat) : String :=
  ((table_data cd).getD i []).getD j ""

/-- The generation-metadata block (`info_data`): timestamp row and fixed
system-version row. -/
def info_data (now : String) : List (List String) :=
  [["報告生成時間", now], ["系統版本", "客戶查詢系統 v2.0"]]

/-- The blank annotation grid (`notes_data`): the source loop appends
`['', '']` ten times. -/
def notes_data : List (List String) := List.replicate 10 ["", ""]

/-- reportlab's `inch` in points. -/
def inch : ℚ := 72

/-- `rowHeights=[0.3*inch]*10` of the annotation table. -/
def notesRowHeights : List ℚ := List.replicate 10 (0.3 * inch)

/-- The slice of a reportlab `ParagraphStyle` that the renderer reads. -/
structure PStyle where
  fontName : String
  fontSize : Nat
  leading : Nat
  alignment : Option Nat
deriving DecidableEq, Repr

/-- reportlab's stock `styles['Normal']`. -/
def stylesNormal : PStyle := { fontName := "Helvetica", fontSize := 10, leading := 12, alignment := none }

/-- reportlab's stock `styles['Title']`. -/
def stylesTitle : PStyle := { fontName := "Helvetica-Bold", fontSize := 18, leading := 22, alignment := some 1 }

/-- The external conditions of `generate_pdf_report`'s font handling:
whether one of the candidate `NotoSansTC-Regular.ttf` paths exists, and
whether `pdfmetrics.registerFont` succeeds on it. -/
structure FontEnv where
  fontFileFound : Bool
  registerSucceeds : Bool
deriving DecidableEq, Repr

/-- The `chinese_style` chosen by `generate_pdf_report`: the registered
CJK font when available, otherwise the stock `Normal` style (both the
missing-file path and the failed-registration `except` fall back). -/
def chineseStyleOf (env : FontEnv) : PStyle :=
  if env.fontFileFound then
    if env.registerSucceeds then
      { stylesNormal with fontName := "ChineseFont", fontSize := 11, leading := 14 }
    else stylesNormal
  else stylesNormal

/-- The `title_style` chosen by `generate_pdf_report`: the registered CJK
font when available, otherwise the stock `Title` style. -/
def titleStyleOf (env : FontEnv) : PStyle :=
  if env.fontFileFound then
    if env.registerSucceeds then
      { stylesTitle with fontName := "ChineseFont", fontSize := 16, leading := 20, alignment := some 1 }
    else stylesTitle
  else stylesTitle

/-- The document `generate_pdf_report` builds: title, field grid, metadata
block, blank annotation grid and footer, with the font name each `Table`
style / `ParagraphStyle` actually uses. -/
structure PdfDocument where
  titleText : String
  titleFont : String
  tableData : List (List String)
  tableFont : String
  tableColWidths : List ℚ
  infoData : List (List String)
  infoFont : String
  notesData : List (List String)
  notesFont : String
  notesRowHeights : List ℚ
  footerText : String
  footerFont : String
  footerFontSize : Nat
  footerAlignment : Option Nat
deriving DecidableEq, Repr

/-- `generate_pdf_report(customer_data)` of `streamlit_app.py`, as a
function of the font environment, the generation timestamp and the
record.  Every `Table` style sets its font to `chinese_style.fontName`
(a `ParagraphStyle` always has a `fontName`, so the `hasattr` guard's
`'Helvetica'` default is dead); the footer's style inherits from
`chinese_style`. -/
def generate_pdf_report (env : FontEnv) (now : String) (cd : CustomerData) : PdfDocument :=
  { titleText := "客戶資料表"
    titleFont := (titleStyleOf env).fontName
    tableData := table_data cd
    tableFont := (chineseStyleOf env).fontName
    tableColWidths := [1.2 * inch, 2.3 * inch, 1.2 * inch, 2.3 * inch]
    infoData := info_data now
    infoFont := (chineseStyleOf env).fontName
    notesData := notes_data
    notesFont := (chineseStyleOf env).fontName
    notesRowHeights := notesRowHeights
    footerText := "此為系統自動生成的客戶資料表，請妥善保管客戶隱私資訊"
    footerFont := (chineseStyleOf env).fontName
    footerFontSize := 8
    footerAlignment := some 1 }

/-- Python's `str.split(sep)` for a one-character separator: splits on
every occurrence, keeping empty segments, and always returns at least one
segment. -/
def pySplit (sep : Char) : List Char → List (List Char)
  | [] => [[]]
  | c :: t =>
      let r := pySplit sep t
      if c = sep then [] :: r
      else
        match r with
        | [] => [[c]]
        | h :: t' => (c :: h) :: t'

/-- `customer_info.split('(')[1].split(')')[0]` — extracting the member id
from a selection label like `"王小明 (M001)"`.  `none` models the
`IndexError` raised when the label contains no `(`. -/
def extract_member_id (info : String) : Option String :=
  ((pySplit '(' info.data).get? 1).map fun t => ⟨(pySplit ')' t).headD []⟩

/-- `f"客戶資料_{customer['member_id']}_{customer['name']}.pdf"`. -/
def pdfFilename (c : CustomerData) : String :=
  "客戶資料_" ++ c.member_id.getD "" ++ "_" ++ c.name.getD "" ++ ".pdf"

/-- The `st.error` message of the batch packager's per-item `except`
clause. -/
def batchErrorMsg (c : CustomerData) (e : String) : String :=
  "生成 " ++ c.name.getD "" ++ " 的PDF時發生錯誤: " ++ e

/-- `next((c for c in all_customers if c['member_id'] == member_id), None)`
from `streamlit_app.py`: the generator scans `all_customers` in order and
evaluates `c['member_id']` on every scanned record, so a scanned record
lacking the key raises a `KeyError` that nothing catches (aborting the
whole batch); the scan stops at the first match, and exhausting the list
yields `None`. -/
def find_customer (mid : String) : List CustomerData → Except String (Option CustomerData)
  | [] => .ok none
  | c :: rest =>
    match c.member_id with
    | none => .error "KeyError: member_id"
    | some m => if m = mid then .ok (some c) else find_customer mid rest

/-- `generate_batch_pdf_reports(selected_customers, all_customers)` of
`streamlit_app.py`.  `render` stands for the call to
`generate_pdf_report`, which may raise (e.g. an I/O failure while
materializing the buffer); the per-item `try/except` catches exactly that
call (plus the filename construction and zip write), records an
`st.error` message, and continues with the remaining selections.
In the source the function *returns* only the zip bytes — the archive
entries, first component here — while the per-item error messages
(second component) are emitted through the `st.error` display channel;
the embedding makes both observable as the pair.  Failure paths the
per-item handler does not catch end the whole batch with `.error`:
a label without `(` raises `IndexError` at the `split` subscript; a
scanned record lacking `member_id` raises `KeyError` inside the lookup
generator; and a matched record lacking `name` raises `KeyError` either
in the filename f-string or in the `except` handler's own message
f-string.  A label whose id matches no customer is silently skipped
(`next(..., None)` returns `None` and `if customer:` fails). -/
def generate_batch_pdf_reports {β : Type} (render : CustomerData → Except String β)
    (all_customers : List CustomerData) :
    List String → Except String (List (String × β) × List String)
  | [] => .ok ([], [])
  | info :: rest =>
    match extract_member_id info with
    | none => .error "IndexError: list index out of range"
    | some mid =>
      match find_customer mid all_customers with
      | .error e => .error e
      | .ok none => generate_batch_pdf_reports render all_customers rest
      | .ok (some c) =>
        match c.name with
        | none => .error "KeyError: name"
        | some _ =>
          match render c with
          | .ok pdf =>
            match generate_batch_pdf_reports render all_customers rest with
            | .ok (entries, errs) => .ok ((pdfFilename c, pdf) :: entries, errs)
            | .error e => .error e
          | .error e =>
            match generate_batch_pdf_reports render all_customers rest with
            | .ok (entries, errs) => .ok (entries, batchErrorMsg c e :: errs)
            | .error e2 => .error e2

/-- The archive entries the batch operation *returns* (the zip bytes are
the source function's only return value). -/
def batchArchive {β : Type} : Except String (List (String × β) × List String) → List (String × β)
  | .ok (entries, _) => entries
  | .error _ => []

/-- The per-item error messages the batch operation *displays* via
`st.error` (they are not part of the source function's return value). -/
def batchDisplayed {β : Type} : Except String (List (String × β) × List String) → List String
  | .ok (_, errs) => errs
  | .error _ => []

end StreamlitApp

namespace Fixtures

open DatabaseConfig StreamlitApp

/-- A store row whose member id `axc` is matched by the wildcard query
`a_c` without containing it as a substring. -/
def rowAxc : Row :=
  ⟨"axc", "noname", none, none, none, none, none, none, none, none, none⟩

/-- Two store rows sharing the primary key `M001` (a duplicate-key store
defect). -/
def rDup1 : Row :=
  ⟨"M001", "王小明", none, none, none, none, none, none, none, none, none⟩

/-- Second row with the duplicated key `M001`. -/
def rDup2 : Row :=
  ⟨"M001", "王大明", none, none, none, none, none, none, none, none, none⟩

/-- A fully populated sample store row. -/
def rw1 : Row :=
  ⟨"M001", "王小明", some "0912345678", some "ming@example.com", some "台北市",
    some "2023-01-15", some "活躍", some "金卡會員", some 100, some "2024-05-01", none⟩

/-- A second sample store row. -/
def rw2 : Row :=
  ⟨"M002", "陳小華", some "0987654321", none, none, none, some "活躍", none, none,
    some "2024-06-01", none⟩

/-- A customer record with every field absent. -/
def cdNone : CustomerData := ⟨none, none, none, none, none, none, none, none, none, none⟩

/-- A customer record whose points are 1234567. -/
def cdC7 : CustomerData := { cdNone with points := some 1234567 }

/-- Customer records for the batch-rendering scenario. -/
def wr1 : CustomerData :=
  ⟨some "M001", some "王小明", some "0912345678", none, none, none, none, none,
    some 100, none⟩

/-- Second customer record for the batch-rendering scenario. -/
def wr2 : CustomerData :=
  ⟨some "M002", some "陳小華", none, none, none, none, none, none, none, none⟩

/-- A renderer that fails exactly on member `M002` (modelling, e.g., an
I/O failure while materializing that record's buffer). -/
def wrender : CustomerData → Except String Nat :=
  fun c => if c.member_id == some "M002" then .error "boom" else .ok 7

/-- The font environment in which no bundled font file is found. -/
def noFontEnv : FontEnv := ⟨false, false⟩

end Fixtures

namespace SqlSemantics

theorem likeMatch_nil (s : List Char) : likeMatch [] s = s.isEmpty := rfl

theorem likeMatch_percent_cons (ps s : List Char) :
    likeMatch ('%' :: ps) s = suffixAny (likeMatch ps) s := rfl

theorem likeMatch_cons_nil (p : Char) (ps : List Char) (hp : p ≠ '%') :
    likeMatch (p :: ps) [] = false := by
  show (if p = '%' then suffixAny (likeMatch ps) [] else false) = false
  rw [if_neg hp]

theorem likeMatch_cons_cons (p : Char) (ps : List Char) (c : Char) (t : List Char)
    (hp : p ≠ '%') (hu : p ≠ '_') :
    likeMatch (p :: ps) (c :: t) = ((likeFold p == likeFold c) && likeMatch ps t) := by
  show (if p = '%' then suffixAny (likeMatch ps) (c :: t)
        else if p = '_' then likeMatch ps t
        else ((likeFold p == likeFold c) && likeMatch ps t)) = _
  rw [if_neg hp, if_neg hu]

/-- A lone `%` matches every string. -/
theorem percent_matches (s : List Char) : likeMatch ['%'] s = true := by
  induction s with
  | nil => rfl
  | cons c t ih =>
    have h2 : suffixAny (likeMatch []) t = true := by
      rw [← likeMatch_percent_cons]; exact ih
    rw [likeMatch_percent_cons]
    show (likeMatch [] (c :: t) || suffixAny (likeMatch []) t) = true
    rw [h2, Bool.or_true]

/-- `suffixAny f` accepts `s` iff `f` accepts some drop of `s`. -/
theorem suffixAny_eq_true (f : List Char → Bool) (s : List Char) :
    suffixAny f s = true ↔ ∃ n, f (s.drop n) = true := by
  induction s with
  | nil =>
    constructor
    · intro h; exact ⟨0, h⟩
    · rintro ⟨n, hn⟩
      simpa only [List.drop_nil] using hn
  | cons c t ih =>
    constructor
    · intro h
      have h' : f (c :: t) = true ∨ suffixAny f t = true := by
        simpa [suffixAny] using h
      rcases h' with h1 | h2
      · exact ⟨0, h1⟩
      · obtain ⟨n, hn⟩ := ih.mp h2
        exact ⟨n + 1, hn⟩
    · rintro ⟨n, hn⟩
      cases n with
      | zero =>
        have h0 : f (c :: t) = true := hn
        show (f (c :: t) || suffixAny f t) = true
        rw [h0, Bool.true_or]
      | succ n =>
        have h1 : suffixAny f t = true := ih.mpr ⟨n, hn⟩
        show (f (c :: t) || suffixAny f t) = true
        rw [h1, Bool.or_true]

/-- A wildcard-free pattern with a trailing `%` matches `s` iff the folded
pattern is a prefix of the folded string. -/
theorem lit_prefix_percent :
    ∀ q : List Char, (∀ c ∈ q, c ≠ '%' ∧ c ≠ '_') →
      ∀ s : List Char,
        (likeMatch (q ++ ['%']) s = true ↔ q.map likeFold <+: s.map likeFold) := by
  intro q
  induction q with
  | nil =>
    intro _ s
    simp only [List.nil_append, List.map_nil]
    exact iff_of_true (percent_matches s) List.nil_prefix
  | cons a q ih =>
    intro hm s
    have ha := hm a (List.mem_cons_self a q)
    have hm' : ∀ c ∈ q, c ≠ '%' ∧ c ≠ '_' := fun c hc => hm c (List.mem_cons_of_mem a hc)
    cases s with
    | nil =>
      rw [List.cons_append, likeMatch_cons_nil a (q ++ ['%']) ha.1]
      simp
    | cons c t =>
      rw [List.cons_append, likeMatch_cons_cons a (q ++ ['%']) c t ha.1 ha.2]
      simp only [List.map_cons, List.cons_prefix_cons]
      rw [Bool.and_eq_true, beq_iff_eq]
      exact and_congr Iff.rfl (ih hm' t)

/-- A list is an infix of `l₂` iff it is a prefix of some drop of `l₂`. -/
theorem infix_iff_exists_drop {l₁ l₂ : List Char} :
    l₁ <:+: l₂ ↔ ∃ n, l₁ <+: l₂.drop n := by
  constructor
  · rintro ⟨u, v, rfl⟩
    refine ⟨u.length, ?_⟩
    rw [List.append_assoc, List.drop_left]
    exact ⟨v, rfl⟩
  · rintro ⟨n, w, hw⟩
    refine ⟨l₂.take n, w, ?_⟩
    rw [List.append_assoc, hw, List.take_append_drop]

/-- The central `LIKE` characterization: for a query without `%`/`_`
wildcards, the pattern `%query%` matches `s` exactly when the
case-folded query occurs as a contiguous substring of the case-folded
`s`. -/
theorem like_contains (q : List Char) (hm : ∀ c ∈ q, c ≠ '%' ∧ c ≠ '_')
    (s : List Char) :
    likeMatch ('%' :: (q ++ ['%'])) s = true ↔
      q.map likeFold <:+: s.map likeFold := by
  rw [likeMatch_percent_cons, suffixAny_eq_true, infix_iff_exists_drop]
  refine exists_congr fun n => ?_
  rw [lit_prefix_percent q hm (s.drop n), List.map_drop]

/-- Totality of the BINARY collation comparison. -/
theorem charListLe_total :
    ∀ a b : List Char, charListLe a b = true ∨ charListLe b a = true := by
  intro a
  induction a with
  | nil => intro b; left; rfl
  | cons x xs ih =>
    intro b
    cases b with
    | nil => right; rfl
    | cons y ys =>
      rcases lt_trichotomy x y with hlt | heq | hgt
      · left
        show (if x < y then true else if x = y then charListLe xs ys else false) = true
        rw [if_pos hlt]
      · subst heq
        rcases ih ys with h | h
        · left
          show (if x < x then true else if x = x then charListLe xs ys else false) = true
          rw [if_neg (lt_irrefl x), if_pos rfl]
          exact h
        · right
          show (if x < x then true else if x = x then charListLe ys xs else false) = true
          rw [if_neg (lt_irrefl x), if_pos rfl]
          exact h
      · right
        show (if y < x then true else if y = x then charListLe ys xs else false) = true
        rw [if_pos hgt]

/-- Transitivity of the BINARY collation comparison. -/
theorem charListLe_trans :
    ∀ a b c : List Char, charListLe a b = true → charListLe b c = true →
      charListLe a c = true := by
  intro a
  induction a with
  | nil => intro b c _ _; rfl
  | cons x xs ih =>
    intro b c hab hbc
    cases b with
    | nil => exact absurd hab (by simp [charListLe])
    | cons y ys =>
      cases c with
      | nil => exact absurd hbc (by simp [charListLe])
      | cons z zs =>
        have hab' : x < y ∨ (x = y ∧ charListLe xs ys = true) := by
          by_cases h1 : x < y
          · exact Or.inl h1
          · by_cases h2 : x = y
            · refine Or.inr ⟨h2, ?_⟩
              have := hab
              rw [show charListLe (x :: xs) (y :: ys) =
                    (if x < y then true else if x = y then charListLe xs ys else false)
                  from rfl, if_neg h1, if_pos h2] at this
              exact this
            · exfalso
              have := hab
              rw [show charListLe (x :: xs) (y :: ys) =
                    (if x < y then true else if x = y then charListLe xs ys else false)
                  from rfl, if_neg h1, if_neg h2] at this
              exact Bool.false_ne_true this
        have hbc' : y < z ∨ (y = z ∧ charListLe ys zs = true) := by
          by_cases h1 : y < z
          · exact Or.inl h1
          · by_cases h2 : y = z
            · refine Or.inr ⟨h2, ?_⟩
              have := hbc
              rw [show charListLe (y :: ys) (z :: zs) =
                    (if y < z then true else if y = z then charListLe ys zs else false)
                  from rfl, if_neg h1, if_pos h2] at this
              exact this
            · exfalso
              have := hbc
              rw [show charListLe (y :: ys) (z :: zs) =
                    (if y < z then true else if y = z then charListLe ys zs else false)
                  from rfl, if_neg h1, if_neg h2] at this
              exact Bool.false_ne_true this
        show (if x < z then true else if x = z then charListLe xs zs else false) = true
        rcases hab' with h1 | ⟨rfl, hxy⟩
        · rcases hbc' with h2 | ⟨rfl, _⟩
          · rw [if_pos (lt_trans h1 h2)]
          · rw [if_pos h1]
        · rcases hbc' with h2 | ⟨rfl, hyz⟩
          · rw [if_pos h2]
          · rw [if_neg (lt_irrefl x), if_pos rfl]
            exact ih ys zs hxy hyz

end SqlSemantics


namespace DatabaseConfig

open SqlSemantics

theorem pattern_data (q : String) :
    ("%" ++ q ++ "%").data = '%' :: (q.data ++ ['%']) := by
  cases q; rfl

/-- The code's predicate `field LIKE '%query%'` agrees with the spec's
"contains the query as a case-insensitive substring" whenever the query
itself contains no `LIKE` wildcard. -/
theorem sqlLike_contains (q s : String) (hm : ∀ c ∈ q.data, c ≠ '%' ∧ c ≠ '_') :
    sqlLike ("%" ++ q ++ "%") s = true ↔ specContainsCI q s := by
  unfold sqlLike specContainsCI
  rw [pattern_data]
  exact like_contains q.data hm s.data

/-- `optLike` agrees with the spec-side containment on nullable fields. -/
theorem optLike_contains (q : String) (o : Option String)
    (hm : ∀ c ∈ q.data, c ≠ '%' ∧ c ≠ '_') :
    optLike ("%" ++ q ++ "%") o = true ↔ optCI q o := by
  cases o with
  | none => simp [optLike, optCI]
  | some s => exact sqlLike_contains q s hm

theorem lvDesc_total : ∀ a b : Row, lvDesc a b ∨ lvDesc b a := by
  intro a b
  unfold lvDesc
  cases b.last_visit with
  | none => left; rfl
  | some sb =>
    cases a.last_visit with
    | none => right; rfl
    | some sa =>
      rcases charListLe_total sb.data sa.data with h | h
      · left; exact h
      · right; exact h

theorem lvDesc_trans : ∀ a b c : Row, lvDesc a b → lvDesc b c → lvDesc a c := by
  intro a b c hab hbc
  unfold lvDesc at hab hbc ⊢
  cases hc : c.last_visit with
  | none => rfl
  | some sc =>
    cases hb : b.last_visit with
    | none =>
      rw [hc, hb] at hbc
      exact absurd hbc (by simp [optStrLe])
    | some sb =>
      cases ha : a.last_visit with
      | none =>
        rw [hb, ha] at hab
        exact absurd hab (by simp [optStrLe])
      | some sa =>
        rw [hb, ha] at hab
        rw [hc, hb] at hbc
        exact charListLe_trans sc.data sb.data sa.data hbc hab

end DatabaseConfig

/-- C1 (amended): a store-level data-access failure propagates out of
`database_config.search_customers` as a raised exception carrying the
diagnostic text — never as an `.ok` result, in particular never as an
empty record list.  The UI-level `streamlit_app.search_customers`,
however, surfaces transport failures (request exception or non-200
status) only as a displayed `st.error` diagnostic while *returning* the
empty record list, so its return value coincides with that of a
successful zero-match search. -/
theorem search_failure_surfaces_distinct_paths :
    (∀ (e : String) (q : Option String) (st : String),
        DatabaseConfig.search_customers (.error e) q st = .error e) ∧
      (∀ e : String, StreamlitApp.search_customers (.exn e) =
        (["無法搜尋客戶資料: " ++ e], [])) ∧
      (∀ (status : Nat) (cs : List StreamlitApp.CustomerData), status ≠ 200 →
        StreamlitApp.search_customers (.http status cs) =
          (["搜尋客戶失敗: HTTP " ++ toString status], [])) := by
  refine ⟨fun e q st => rfl, fun e => rfl, fun status cs h => ?_⟩
  simp [StreamlitApp.search_customers, h]

/-- C1 witness: the amended theorem applied to a lost connection and to an
HTTP 500 response. -/
theorem search_failure_surfaces_witness :
    DatabaseConfig.search_customers (.error "connection lost") none "all" =
        .error "connection lost" ∧
      StreamlitApp.search_customers (.http 500 []) =
        (["搜尋客戶失敗: HTTP 500"], []) :=
  ⟨search_failure_surfaces_distinct_paths.1 "connection lost" none "all",
   by
     rw [search_failure_surfaces_distinct_paths.2.2 500 [] (by decide)]
     decide⟩

/-- C1 counterexample: a failed UI-level search (HTTP 500) *returns* the
very same empty record sequence as a successful search with zero matches,
refuting "never returns the same result as a successful search with zero
matches"; the failure is observable only through the displayed error
message. -/
theorem search_failure_ui_same_as_zero_matches :
    (StreamlitApp.search_customers (.http 500 [])).2 =
        (StreamlitApp.search_customers (.http 200 [])).2 ∧
      (StreamlitApp.search_customers (.http 500 [])).1 ≠ [] := by
  exact ⟨rfl, by decide⟩

/-- C4 (amended): `get_customer_by_id` returns `None` (NotFound) when the
store yields zero rows for the id, and the *first* row whenever the store
yields one or more rows — but in the duplicate case it emits no log
message at all: no anomaly is logged. -/
theorem get_customer_by_id_first_row_no_log (rows : List DatabaseConfig.Row)
    (mid : String) :
    ((rows.filter fun r => r.member_id == mid) = [] →
        DatabaseConfig.get_customer_by_id (.ok rows) mid = (.ok none, [])) ∧
      (∀ (r : DatabaseConfig.Row) (rs : List DatabaseConfig.Row),
        (rows.filter fun rr => rr.member_id == mid) = r :: rs →
          DatabaseConfig.get_customer_by_id (.ok rows) mid = (.ok (some r), [])) := by
  constructor
  · intro h
    simp [DatabaseConfig.get_customer_by_id, h]
  · intro r rs h
    simp [DatabaseConfig.get_customer_by_id, h]

/-- C4 witness: the amended theorem applied to a miss (`M999`) and a
unique hit (`M002`). -/
theorem get_customer_by_id_witness :
    DatabaseConfig.get_customer_by_id (.ok [Fixtures.rw1, Fixtures.rw2]) "M999" =
        (.ok none, []) ∧
      DatabaseConfig.get_customer_by_id (.ok [Fixtures.rw1, Fixtures.rw2]) "M002" =
        (.ok (some Fixtures.rw2), []) :=
  ⟨(get_customer_by_id_first_row_no_log [Fixtures.rw1, Fixtures.rw2] "M999").1 rfl,
   (get_customer_by_id_first_row_no_log [Fixtures.rw1, Fixtures.rw2] "M002").2
     Fixtures.rw2 [] rfl⟩

/-- C4 counterexample: with two store rows sharing the id `M001`, the
lookup returns the first row while its emitted log-message list is empty —
the duplicate is *not* logged as an anomaly, refuting the claim's "logs
this duplicate as an anomaly". -/
theorem duplicate_rows_no_anomaly_log :
    DatabaseConfig.get_customer_by_id (.ok [Fixtures.rDup1, Fixtures.rDup2]) "M001" =
      (.ok (some Fixtures.rDup1), []) := rfl

/-- C6 (confirmed): on a healthy store, a search with an empty or absent
query returns `.ok` (no error is signalled for the empty query) with at
most 20 records, sorted by `last_visit` descending (`NULL` dates last,
as SQLite orders them under `DESC`). -/
theorem search_empty_query_bounded_sorted (rows : List DatabaseConfig.Row)
    (q : Option String) (hq : q.getD "" = "") :
    DatabaseConfig.search_customers (.ok rows) q "all" =
        .ok ((List.insertionSort DatabaseConfig.lvDesc rows).take 20) ∧
      ((List.insertionSort DatabaseConfig.lvDesc rows).take 20).length ≤ 20 ∧
      List.Sorted DatabaseConfig.lvDesc
        ((List.insertionSort DatabaseConfig.lvDesc rows).take 20) := by
  refine ⟨?_, ?_, ?_⟩
  · simp [DatabaseConfig.search_customers, hq]
  · exact List.length_take_le 20 _
  · haveI : IsTotal DatabaseConfig.Row DatabaseConfig.lvDesc :=
      ⟨DatabaseConfig.lvDesc_total⟩
    haveI : IsTrans DatabaseConfig.Row DatabaseConfig.lvDesc :=
      ⟨DatabaseConfig.lvDesc_trans⟩
    exact List.Pairwise.sublist (List.take_sublist 20 _)
      (List.sorted_insertionSort DatabaseConfig.lvDesc rows)

/-- C6 witness: the theorem applied to a two-row store with an absent
query. -/
theorem search_empty_query_witness :
    DatabaseConfig.search_customers (.ok [Fixtures.rw1, Fixtures.rw2]) none "all" =
        .ok ((List.insertionSort DatabaseConfig.lvDesc
          [Fixtures.rw1, Fixtures.rw2]).take 20) ∧
      ((List.insertionSort DatabaseConfig.lvDesc
        [Fixtures.rw1, Fixtures.rw2]).take 20).length ≤ 20 ∧
      List.Sorted DatabaseConfig.lvDesc
        ((List.insertionSort DatabaseConfig.lvDesc
          [Fixtures.rw1, Fixtures.rw2]).take 20) :=
  search_empty_query_bounded_sorted [Fixtures.rw1, Fixtures.rw2] none rfl

/-- C10 (confirmed): for a non-empty query, every `search_type` outside
the dispatched enumeration — `"email"`, `""`, anything — falls into the
`else` branch and behaves exactly as `"all"`: the OR of the `LIKE` tests
over member_id/name/phone/email, ordered by `last_visit DESC`, with no
validation and no error. -/
theorem search_type_fallthrough_all (q st : String) (rows : List DatabaseConfig.Row)
    (hq : ¬ q = "") (h1 : st ≠ "member_id") (h2 : st ≠ "name") (h3 : st ≠ "phone") :
    DatabaseConfig.search_customers (.ok rows) (some q) st =
        DatabaseConfig.search_customers (.ok rows) (some q) "all" ∧
      DatabaseConfig.search_customers (.ok rows) (some q) st =
        .ok (List.insertionSort DatabaseConfig.lvDesc
          (rows.filter fun r => DatabaseConfig.matchAll ("%" ++ q ++ "%") r)) := by
  constructor <;> simp [DatabaseConfig.search_customers, hq, h1, h2, h3]

/-- C10 witness: the theorem applied to the out-of-enumeration selector
`"email"`. -/
theorem search_type_fallthrough_witness :
    DatabaseConfig.search_customers (.ok [Fixtures.rw1]) (some "091") "email" =
        DatabaseConfig.search_customers (.ok [Fixtures.rw1]) (some "091") "all" ∧
      DatabaseConfig.search_customers (.ok [Fixtures.rw1]) (some "091") "email" =
        .ok (List.insertionSort DatabaseConfig.lvDesc
          ([Fixtures.rw1].filter fun r => DatabaseConfig.matchAll ("%" ++ "091" ++ "%") r)) :=
  search_type_fallthrough_all "091" "email" [Fixtures.rw1]
    (by decide) (by decide) (by decide) (by decide)

/-- C5 (amended): for a non-empty query containing no `LIKE` wildcard
(`%`/`_`), a record is in the `field=all` search result iff at least one
of its member-id, name, phone or email fields contains the query as a
case-insensitive (ASCII case folding, as SQLite's default `LIKE`)
substring.  A query containing a wildcard is interpreted as a pattern
instead (see the counterexample). -/
theorem search_all_matches_iff_ci_substring (q : String)
    (rows : List DatabaseConfig.Row) (r : DatabaseConfig.Row)
    (hq : ¬ q = "") (hm : ∀ c ∈ q.data, c ≠ '%' ∧ c ≠ '_') :
    (r ∈ DatabaseConfig.resultList
        (DatabaseConfig.search_customers (.ok rows) (some q) "all") ↔
      r ∈ rows ∧ (DatabaseConfig.specContainsCI q r.member_id ∨
        DatabaseConfig.specContainsCI q r.name ∨
        DatabaseConfig.optCI q r.phone ∨ DatabaseConfig.optCI q r.email)) := by
  have hstep : DatabaseConfig.search_customers (.ok rows) (some q) "all" =
      .ok (List.insertionSort DatabaseConfig.lvDesc
        (rows.filter fun rr => DatabaseConfig.matchAll ("%" ++ q ++ "%") rr)) := by
    simp [DatabaseConfig.search_customers, hq]
  rw [hstep]
  show r ∈ List.insertionSort DatabaseConfig.lvDesc _ ↔ _
  rw [(List.perm_insertionSort DatabaseConfig.lvDesc _).mem_iff, List.mem_filter]
  refine and_congr Iff.rfl ?_
  unfold DatabaseConfig.matchAll
  rw [Bool.or_eq_true, Bool.or_eq_true, Bool.or_eq_true,
    DatabaseConfig.sqlLike_contains q r.member_id hm,
    DatabaseConfig.sqlLike_contains q r.name hm,
    DatabaseConfig.optLike_contains q r.phone hm,
    DatabaseConfig.optLike_contains q r.email hm]
  tauto

/-- C5 witness: the amended theorem applied to the query `091` on a
two-row store. -/
theorem search_all_matches_witness :
    (Fixtures.rw1 ∈ DatabaseConfig.resultList
        (DatabaseConfig.search_customers
          (.ok [Fixtures.rw1, Fixtures.rw2]) (some "091") "all") ↔
      Fixtures.rw1 ∈ [Fixtures.rw1, Fixtures.rw2] ∧
        (DatabaseConfig.specContainsCI "091" Fixtures.rw1.member_id ∨
          DatabaseConfig.specContainsCI "091" Fixtures.rw1.name ∨
          DatabaseConfig.optCI "091" Fixtures.rw1.phone ∨
          DatabaseConfig.optCI "091" Fixtures.rw1.email)) :=
  search_all_matches_iff_ci_substring "091" [Fixtures.rw1, Fixtures.rw2] Fixtures.rw1
    (by decide) (by decide)

/-- C5 counterexample: the query `a_c` (legal, non-empty free text)
selects the record whose member id is `axc`, although no field of that
record contains `a_c` as a substring, case-insensitively or otherwise —
the unescaped `_` acts as a `LIKE` single-character wildcard, refuting
the claimed "iff" for general query text. -/
theorem search_all_wildcard_underscore_counterexample :
    DatabaseConfig.resultList
        (DatabaseConfig.search_customers (.ok [Fixtures.rowAxc]) (some "a_c") "all") =
        [Fixtures.rowAxc] ∧
      ¬ DatabaseConfig.specContainsCI "a_c" Fixtures.rowAxc.member_id ∧
      ¬ DatabaseConfig.specContainsCI "a_c" Fixtures.rowAxc.name ∧
      Fixtures.rowAxc.phone = none ∧ Fixtures.rowAxc.email = none := by
  exact ⟨rfl, by decide, by decide, rfl, rfl⟩

/-- C2 (amended): `generate_pdf_report` renders every absent field of the
fixed layout as the literal `"N/A"` — except `points`, whose absence is
defaulted to `0` and rendered as the formatted value `"0 點"`.  Rendering
is total on records with absent fields (each cell is produced by
`dict.get` with a default, which cannot raise). -/
theorem absent_fields_render_na_except_points (cd : StreamlitApp.CustomerData) :
    (cd.member_id = none → StreamlitApp.cellAt cd 1 1 = "N/A") ∧
      (cd.name = none → StreamlitApp.cellAt cd 1 3 = "N/A") ∧
      (cd.phone = none → StreamlitApp.cellAt cd 2 1 = "N/A") ∧
      (cd.email = none → StreamlitApp.cellAt cd 2 3 = "N/A") ∧
      (cd.address = none → StreamlitApp.cellAt cd 3 1 = "N/A") ∧
      (cd.join_date = none → StreamlitApp.cellAt cd 3 3 = "N/A") ∧
      (cd.level = none → StreamlitApp.cellAt cd 4 1 = "N/A") ∧
      (cd.status = none → StreamlitApp.cellAt cd 4 3 = "N/A") ∧
      (cd.last_visit = none → StreamlitApp.cellAt cd 5 3 = "N/A") ∧
      (cd.points = none → StreamlitApp.cellAt cd 5 1 = "0 點") := by
  refine ⟨?_, ?_, ?_, ?_, ?_, ?_, ?_, ?_, ?_, ?_⟩ <;>
    (intro h; simp [StreamlitApp.cellAt, StreamlitApp.table_data, List.getD, h]; try rfl)

/-- C2 witness: the theorem applied to a record with every field absent. -/
theorem absent_fields_render_na_witness :
    StreamlitApp.cellAt Fixtures.cdNone 1 1 = "N/A" ∧
      StreamlitApp.cellAt Fixtures.cdNone 5 3 = "N/A" :=
  ⟨(absent_fields_render_na_except_points Fixtures.cdNone).1 rfl,
   (absent_fields_render_na_except_points Fixtures.cdNone).2.2.2.2.2.2.2.2.1 rfl⟩

/-- C2 counterexample: a record with the `points` field absent renders
its points cell as `"0 點"`, not as the claimed placeholder `"N/A"`. -/
theorem absent_points_renders_zero_not_na :
    StreamlitApp.cellAt Fixtures.cdNone 5 1 = "0 點" ∧
      StreamlitApp.cellAt Fixtures.cdNone 5 1 ≠ "N/A" := by
  exact ⟨rfl, by decide⟩

/-- C7 (confirmed): a present non-negative `points` value `n` is rendered
as Python's `f"{n:,}"` — decimal digits grouped in threes with comma
separators — followed by the fixed unit suffix `" 點"`; in particular
`points = 1234567` renders as `"1,234,567 點"`. -/
theorem points_formatted_with_thousands (cd : StreamlitApp.CustomerData) (n : Int)
    (hp : cd.points = some n) (hn : 0 ≤ n) :
    StreamlitApp.cellAt cd 5 1 = StreamlitApp.intComma n ++ " 點" ∧
      (n = 1234567 → StreamlitApp.cellAt cd 5 1 = "1,234,567 點") := by
  constructor
  · simp [StreamlitApp.cellAt, StreamlitApp.table_data, List.getD, hp]
  · rintro rfl
    simp [StreamlitApp.cellAt, StreamlitApp.table_data, List.getD, hp]
    rfl

/-- C7 witness: the theorem applied to a record with `points = 1234567`. -/
theorem points_formatted_witness :
    StreamlitApp.cellAt Fixtures.cdC7 5 1 = "1,234,567 點" :=
  (points_formatted_with_thousands Fixtures.cdC7 1234567 rfl (by decide)).2 rfl

/-- C8 (amended): `generate_pdf_report` is total in the font environment —
a missing or unregistrable bundled font falls back to the stock built-in
styles and a document is still produced, with no `FontUnavailable`
surfaced to the caller.  The tracked font (`chinese_style.fontName`) is
used consistently in the field table, metadata table, annotation table
and footer paragraph style; when the bundled font registers, the title
uses it too, but in the fallback case the title style falls back
separately to the stock `Title` font `Helvetica-Bold`, which differs from
the body fallback font `Helvetica`. -/
theorem font_fallback_consistent_body_fonts (env : StreamlitApp.FontEnv)
    (now : String) (cd : StreamlitApp.CustomerData) :
    ((StreamlitApp.generate_pdf_report env now cd).tableFont =
          (StreamlitApp.chineseStyleOf env).fontName ∧
        (StreamlitApp.generate_pdf_report env now cd).infoFont =
          (StreamlitApp.chineseStyleOf env).fontName ∧
        (StreamlitApp.generate_pdf_report env now cd).notesFont =
          (StreamlitApp.chineseStyleOf env).fontName ∧
        (StreamlitApp.generate_pdf_report env now cd).footerFont =
          (StreamlitApp.chineseStyleOf env).fontName) ∧
      (env.fontFileFound = true → env.registerSucceeds = true →
        (StreamlitApp.generate_pdf_report env now cd).tableFont = "ChineseFont" ∧
          (StreamlitApp.generate_pdf_report env now cd).titleFont = "ChineseFont") ∧
      (env.fontFileFound = false ∨ env.registerSucceeds = false →
        (StreamlitApp.generate_pdf_report env now cd).tableFont = "Helvetica" ∧
          (StreamlitApp.generate_pdf_report env now cd).titleFont = "Helvetica-Bold") := by
  rcases env with ⟨ff, rs⟩
  cases ff <;> cases rs <;>
    simp [StreamlitApp.generate_pdf_report, StreamlitApp.chineseStyleOf,
      StreamlitApp.titleStyleOf, StreamlitApp.stylesNormal, StreamlitApp.stylesTitle]

/-- C8 witness: the theorem applied to the registered-font environment and
to the missing-font environment. -/
theorem font_fallback_witness :
    (StreamlitApp.generate_pdf_report ⟨true, true⟩ "2025-01-01 00:00:00"
        Fixtures.cdNone).tableFont = "ChineseFont" ∧
      (StreamlitApp.generate_pdf_report ⟨false, false⟩ "2025-01-01 00:00:00"
        Fixtures.cdNone).tableFont = "Helvetica" :=
  ⟨((font_fallback_consistent_body_fonts ⟨true, true⟩ "2025-01-01 00:00:00"
      Fixtures.cdNone).2.1 rfl rfl).1,
   ((font_fallback_consistent_body_fonts ⟨false, false⟩ "2025-01-01 00:00:00"
      Fixtures.cdNone).2.2 (Or.inl rfl)).1⟩

/-- C8 counterexample: in the fallback environment the title paragraph
style uses `Helvetica-Bold` while every table style uses `Helvetica` —
the selected font is *not* used consistently in every table and paragraph
style, refuting that clause of the claim. -/
theorem fallback_title_font_differs :
    (StreamlitApp.generate_pdf_report Fixtures.noFontEnv "2025-01-01 00:00:00"
        Fixtures.cdNone).titleFont ≠
      (StreamlitApp.generate_pdf_report Fixtures.noFontEnv "2025-01-01 00:00:00"
        Fixtures.cdNone).tableFont := by
  decide

/-- C9 (amended): the rendered field grid consists of a header row
`['項目','內容','項目','內容']` followed by exactly five field rows of
four cells (label, value, label, value) in the fixed pairing order
[member-id, name], [phone, email], [address, join-date], [level, status],
[points, last-visit] — six grid rows in total, not five — and the
trailing annotation area is exactly 10 blank rows of 2 columns with the
fixed row height `0.3 * inch` and no content. -/
theorem field_grid_header_five_rows_notes (cd : StreamlitApp.CustomerData) :
    StreamlitApp.table_data cd =
        ["項目", "內容", "項目", "內容"] ::
          [["會員編號", cd.member_id.getD "N/A", "客戶姓名", cd.name.getD "N/A"],
           ["聯絡電話", cd.phone.getD "N/A", "電子郵件", cd.email.getD "N/A"],
           ["聯絡地址", cd.address.getD "N/A", "加入日期", cd.join_date.getD "N/A"],
           ["會員等級", cd.level.getD "N/A", "會員狀態", cd.status.getD "N/A"],
           ["累積點數", StreamlitApp.intComma (cd.points.getD 0) ++ " 點", "最後來訪",
             cd.last_visit.getD "N/A"]] ∧
      (StreamlitApp.table_data cd).length = 6 ∧
      ((StreamlitApp.table_data cd).drop 1).length = 5 ∧
      (StreamlitApp.table_data cd).map List.length = [4, 4, 4, 4, 4, 4] ∧
      StreamlitApp.notes_data = List.replicate 10 ["", ""] ∧
      StreamlitApp.notes_data.map List.length = List.replicate 10 2 ∧
      StreamlitApp.notesRowHeights = List.replicate 10 (0.3 * StreamlitApp.inch) :=
  ⟨rfl, rfl, rfl, rfl, rfl, by decide, rfl⟩

/-- C9 counterexample: the field grid built by the renderer has six rows
(a header row plus the five field rows), so it does not consist of
exactly five rows as claimed. -/
theorem field_grid_has_six_rows :
    (StreamlitApp.table_data Fixtures.cdNone).length ≠ 5 := by
  decide

/-- C3 (amended): for every sequence of selected records, the batch
packager processes each selection independently.  The two conjuncts
characterize one processing step at an arbitrary position — the selected
label `s` resolving to record `c`, followed by an *arbitrary* remaining
sequence `rest`: if rendering `c` fails, the failure is caught and
contributes exactly one per-item error message while the remaining
records produce exactly the archive entries and messages they produce on
their own (a failure never aborts the remaining renders); if rendering
`c` succeeds, it prepends exactly one archive entry.  The per-item error
messages, however, are emitted through the `st.error` display channel
and are not part of the value the source function returns, which is the
zip archive alone (see the counterexample); the hypotheses scope the
step to selections the uncatchable `IndexError`/`KeyError` paths do not
abort. -/
theorem renderBatch_isolates_per_item_failure {β : Type}
    (render : StreamlitApp.CustomerData → Except String β)
    (all : List StreamlitApp.CustomerData) (s mid nm : String)
    (c : StreamlitApp.CustomerData)
    (hx : StreamlitApp.extract_member_id s = some mid)
    (hfind : StreamlitApp.find_customer mid all = .ok (some c))
    (hname : c.name = some nm) :
    (∀ (rest : List String) (es : List (String × β)) (errs : List String) (e : String),
        render c = .error e →
        StreamlitApp.generate_batch_pdf_reports render all rest = .ok (es, errs) →
        StreamlitApp.generate_batch_pdf_reports render all (s :: rest) =
          .ok (es, StreamlitApp.batchErrorMsg c e :: errs)) ∧
      (∀ (rest : List String) (es : List (String × β)) (errs : List String) (b : β),
        render c = .ok b →
        StreamlitApp.generate_batch_pdf_reports render all rest = .ok (es, errs) →
        StreamlitApp.generate_batch_pdf_reports render all (s :: rest) =
          .ok ((StreamlitApp.pdfFilename c, b) :: es, errs)) := by
  constructor
  · intro rest es errs e hr hrest
    simp only [StreamlitApp.generate_batch_pdf_reports, hx, hfind, hname, hr, hrest]
  · intro rest es errs b hr hrest
    simp only [StreamlitApp.generate_batch_pdf_reports, hx, hfind, hname, hr, hrest]

/-- C3 witness: the theorem applied twice builds the claim's concrete
scenario — the batch `[r1, r2]` where rendering `r2` fails yields one
archive entry for `r1` plus exactly one error message for `r2`, the
failure notwithstanding. -/
theorem renderBatch_isolates_witness :
    StreamlitApp.generate_batch_pdf_reports Fixtures.wrender
        [Fixtures.wr1, Fixtures.wr2] ["王小明 (M001)", "陳小華 (M002)"] =
      .ok ([(StreamlitApp.pdfFilename Fixtures.wr1, 7)],
        [StreamlitApp.batchErrorMsg Fixtures.wr2 "boom"]) := by
  have h2 : StreamlitApp.generate_batch_pdf_reports Fixtures.wrender
      [Fixtures.wr1, Fixtures.wr2] ["陳小華 (M002)"] =
      .ok ([], [StreamlitApp.batchErrorMsg Fixtures.wr2 "boom"]) :=
    (renderBatch_isolates_per_item_failure Fixtures.wrender [Fixtures.wr1, Fixtures.wr2]
        "陳小華 (M002)" "M002" "陳小華" Fixtures.wr2 rfl rfl rfl).1 [] [] [] "boom" rfl rfl
  exact (renderBatch_isolates_per_item_failure Fixtures.wrender [Fixtures.wr1, Fixtures.wr2]
      "王小明 (M001)" "M001" "王小明" Fixtures.wr1 rfl rfl rfl).2 ["陳小華 (M002)"] []
      [StreamlitApp.batchErrorMsg Fixtures.wr2 "boom"] 7 rfl h2

/-- C3 counterexample: the value the batch operation *returns* for
`[r1, r2]` with `r2`'s render failing — the zip archive — is identical
to the archive returned for a batch that never contained `r2` at all;
the per-item error message appears only among the displayed `st.error`
messages.  This refutes the claim's "reported as a per-item error
message collected in a returned error list … the operation returns the
pair (archive bytes, error list)": the return value carries no error
list. -/
theorem renderBatch_errors_displayed_not_returned :
    StreamlitApp.batchArchive (StreamlitApp.generate_batch_pdf_reports Fixtures.wrender
        [Fixtures.wr1, Fixtures.wr2] ["王小明 (M001)", "陳小華 (M002)"]) =
      StreamlitApp.batchArchive (StreamlitApp.generate_batch_pdf_reports Fixtures.wrender
        [Fixtures.wr1] ["王小明 (M001)"]) ∧
      StreamlitApp.batchDisplayed (StreamlitApp.generate_batch_pdf_reports Fixtures.wrender
        [Fixtures.wr1, Fixtures.wr2] ["王小明 (M001)", "陳小華 (M002)"]) =
        [StreamlitApp.batchErrorMsg Fixtures.wr2 "boom"] :=
  ⟨rfl, rfl⟩
